import Mathlib

/-
Verification of the "Planora" study app core (study-zen-23).

Shallow embedding of:
  * the pomodoro session controller (src/pages/Pomodoro.tsx):
    toggleTimer / completeSession / resetTimer / the one-second tick effect,
    with the pomodoro_sessions table modelled as an explicit list of rows
    and collaborator write outcomes passed in as parameters;
  * the notification aggregator (Header component): the three capped
    queries (upcoming exams, overdue tasks, due-soon tasks), the
    Notification record builders, and the in-memory unread-count state;
  * the dashboard schedule aggregation (Dashboard.tsx).

Timestamps are milliseconds since the epoch (Int), matching JavaScript
Date.getTime(); JavaScript Math.ceil of an exact division is rendered as
integer floor division of the adjusted numerator; the database ORDER BY
of a query is rendered as an insertion sort on the query's key.
-/

namespace Planora

def msPerDay : Int := 1000 * 60 * 60 * 24

/-! ## Persistence-collaborator rows -/

/-- Row of the exams table (fields the aggregator reads). -/
structure ExamRow where
  id : String
  course : String
  title : String
  exam_date : Int
deriving DecidableEq

/-- Row of the tasks table (fields the aggregator and dashboard read). -/
structure TaskRow where
  id : String
  title : String
  course : Option String
  due_date : Option Int
  completed : Bool
  priority : String
deriving DecidableEq

/-- Row of the pomodoro_sessions table (fields the controller writes). -/
structure SessionRow where
  id : String
  duration : Nat
  completed : Bool
  completed_at : Option Int
deriving DecidableEq

/-! ## Pomodoro session controller (Pomodoro.tsx)

The component state is duration/timeLeft/isRunning/sessionId; the
pomodoro_sessions table is carried alongside so that the writes issued by
the controller are visible in the model.  Collaborator outcomes (the id a
successful insert returns, or failure) are explicit parameters. -/

structure PomodoroState where
  /-- configured duration, in seconds (25 * 60 in the component). -/
  duration : Nat
  timeLeft : Nat
  isRunning : Bool
  sessionId : Option String
  /-- the pomodoro_sessions table rows. -/
  db : List SessionRow
deriving DecidableEq

/-- resetTimer: stop, restore the full duration, drop the session id; the
interval handle is cleared (no table write happens). -/
def resetTimer (s : PomodoroState) : PomodoroState :=
  { s with isRunning := false, timeLeft := s.duration, sessionId := none }

/-- toggleTimer: when not running and no session id is held, an
authenticated user inserts one pomodoro_sessions row with
duration = floor(seconds / 60) and completed = false; on insert error the
function returns early (toast only).  In every non-erroring path
isRunning is flipped.  The parameter `user` is whether getUser returned a
user; `insertResult` is the id of the inserted row, or none on error. -/
def toggleTimer (s : PomodoroState) (user : Bool) (insertResult : Option String) :
    PomodoroState :=
  if !s.isRunning && s.sessionId.isNone then
    if !user then s
    else
      match insertResult with
      | none => s
      | some newId =>
          { s with
            db := s.db ++ [{ id := newId, duration := s.duration / 60,
                             completed := false, completed_at := none }],
            sessionId := some newId,
            isRunning := !s.isRunning }
  else
    { s with isRunning := !s.isRunning }

/-- completeSession: without a session id it returns at once.  Otherwise it
updates that row to completed = true with completed_at = now; on update
error only a toast is shown (no local change), on success resetTimer runs
(loadSessions afterwards is a pure read). -/
def completeSession (s : PomodoroState) (now : Int) (updateOk : Bool) :
    PomodoroState :=
  match s.sessionId with
  | none => s
  | some sid =>
      if updateOk then
        resetTimer
          { s with
            db := s.db.map (fun r =>
              if r.id = sid then { r with completed := true, completed_at := some now }
              else r) }
      else s

/-- One firing of the interval callback: it exists only while
isRunning and timeLeft > 0, and decrements timeLeft by one. -/
def intervalTick (s : PomodoroState) : PomodoroState :=
  if s.isRunning && 0 < s.timeLeft then { s with timeLeft := s.timeLeft - 1 } else s

/-- Number of completeSession calls one evaluation of the
[isRunning, timeLeft] effect makes: one exactly when timeLeft = 0 while
isRunning, else zero. -/
def effectCompletionCalls (s : PomodoroState) : Nat :=
  if s.timeLeft = 0 && s.isRunning then 1 else 0

/-- One evaluation of the [isRunning, timeLeft] effect's completion arm. -/
def runEffect (s : PomodoroState) (now : Int) (updateOk : Bool) : PomodoroState :=
  if s.timeLeft = 0 && s.isRunning then completeSession s now updateOk else s

/-- A controller as first mounted: 25 minutes configured, idle, no open
session, and an arbitrary (here empty) sessions table. -/
def pomodoroInit : PomodoroState :=
  { duration := 25 * 60, timeLeft := 25 * 60, isRunning := false,
    sessionId := none, db := [] }

/-- A running controller one second before completion. -/
def pomodoroNearDone : PomodoroState :=
  { duration := 25 * 60, timeLeft := 1, isRunning := true,
    sessionId := some "s1", db := [{ id := "s1", duration := 25,
                                     completed := false, completed_at := none }] }

/-! ## Notification aggregator (Header component)

The three supabase queries are server-side filter / order / limit
pipelines over the user's rows; each query result reaches the client as
data-or-null, modelled as an Option that is none exactly when the query
failed.  The optional chaining on each result makes a failed source
contribute nothing. -/

/-- In-memory notification record built by loadNotifications. -/
structure Notification where
  id : String
  title : String
  message : String
  time : String
  read : Bool
deriving DecidableEq

/-- Math.ceil of (t - now) / msPerDay on exact integers: the whole-day
count the builders embed in their messages. -/
def daysUntil (now t : Int) : Int :=
  (t - now + (msPerDay - 1)).fdiv msPerDay

/-- Stand-in for Date.toLocaleDateString (the exact text is
locale-dependent and constrained by no claim): the calendar day index. -/
def formatLocaleDate (t : Int) : String :=
  toString (t.fdiv msPerDay)

/-- Notification built from one upcoming exam row. -/
def mkExamNotif (now : Int) (e : ExamRow) : Notification :=
  { id := "exam-" ++ e.id,
    title := "Upcoming Exam: " ++ e.course,
    message := e.title ++ " in " ++ toString (daysUntil now e.exam_date) ++ " days",
    time := formatLocaleDate e.exam_date,
    read := false }

/-- Notification built from one overdue task row (the overdue query only
returns rows whose due_date is non-null, so getD 0 is never reached on
query output). -/
def mkOverdueNotif (t : TaskRow) : Notification :=
  { id := "overdue-" ++ t.id,
    title := "Overdue Task",
    message := t.title,
    time := formatLocaleDate (t.due_date.getD 0),
    read := false }

/-- Notification built from one due-soon task row (due_date non-null on
query output, as for mkOverdueNotif). -/
def mkUpcomingNotif (now : Int) (t : TaskRow) : Notification :=
  { id := "upcoming-" ++ t.id,
    title := "Upcoming Task: " ++ t.course.getD "General",
    message := t.title ++ " due in "
      ++ toString (daysUntil now (t.due_date.getD 0)) ++ " days",
    time := formatLocaleDate (t.due_date.getD 0),
    read := false }

/-- Exams query: exam_date >= now, ascending by exam_date, limit 5. -/
def examsQuery (rows : List ExamRow) (now : Int) : List ExamRow :=
  (((rows.filter (fun e => now ≤ e.exam_date)).insertionSort
      (fun a b => a.exam_date ≤ b.exam_date)).take 5)

/-- Overdue-tasks query: completed = false and due_date < now (null
due_date fails the comparison), limit 5, table order. -/
def overdueQuery (rows : List TaskRow) (now : Int) : List TaskRow :=
  ((rows.filter (fun t => !t.completed &&
      match t.due_date with
      | some d => decide (d < now)
      | none => false)).take 5)

/-- Due-soon-tasks query: completed = false and
now <= due_date <= now + 7 days, ascending by due_date, limit 5. -/
def upcomingQuery (rows : List TaskRow) (now : Int) : List TaskRow :=
  (((rows.filter (fun t => !t.completed &&
      match t.due_date with
      | some d => decide (now ≤ d) && decide (d ≤ now + 7 * msPerDay)
      | none => false)).insertionSort
      (fun a b => a.due_date.getD 0 ≤ b.due_date.getD 0)).take 5)

/-- loadNotifications' pure tail: fold the three query results (none =
that query failed) into the notification list, exams then overdue then
upcoming, each row through its builder. -/
def loadNotifications (examsRes : Option (List ExamRow))
    (overdueRes upcomingRes : Option (List TaskRow)) (now : Int) :
    List Notification :=
  (match examsRes with
   | none => []
   | some es => es.map (mkExamNotif now))
  ++ (match overdueRes with
      | none => []
      | some ts => ts.map mkOverdueNotif)
  ++ (match upcomingRes with
      | none => []
      | some ts => ts.map (mkUpcomingNotif now))

/-- Header component state touched by the notification handlers. -/
structure HeaderState where
  notifications : List Notification
  unreadCount : Int
deriving DecidableEq

/-- State writes at the end of loadNotifications: the produced list, and
unreadCount = its length. -/
def setLoadedNotifications (h : HeaderState) (notifs : List Notification) :
    HeaderState :=
  { h with notifications := notifs, unreadCount := (notifs.length : Int) }

/-- removeNotification: drop the entries whose id matches, and decrement
the unread count clamped at zero (Math.max 0 (prev - 1)). -/
def removeNotification (h : HeaderState) (nid : String) : HeaderState :=
  { notifications := h.notifications.filter (fun n => n.id ≠ nid),
    unreadCount := max 0 (h.unreadCount - 1) }

/-! ## Dashboard schedule aggregation (Dashboard.tsx)

Date handling is modelled in UTC: a calendar day is a msPerDay-sized
block, isToday / isTomorrow compare day indices, and format "HH:mm" is
the zero-padded hour and minute of the timestamp. -/

def dayIndex (t : Int) : Int := t.fdiv msPerDay

def isToday (t now : Int) : Bool := dayIndex t = dayIndex now

def isTomorrow (t now : Int) : Bool := dayIndex t = dayIndex now + 1

def pad2 (n : Nat) : String :=
  if n < 10 then "0" ++ toString n else toString n

/-- format(date, "HH:mm"). -/
def formatHM (t : Int) : String :=
  pad2 ((t.fdiv (1000 * 60 * 60)) % 24).toNat ++ ":"
    ++ pad2 ((t.fdiv (1000 * 60)) % 60).toNat

/-- Code-point comparison of character lists, strict part. -/
def strLtAux : List Char → List Char → Bool
  | [], [] => false
  | [], _ :: _ => true
  | _ :: _, [] => false
  | a :: as, b :: bs =>
      if a.toNat < b.toNat then true
      else if b.toNat < a.toNat then false
      else strLtAux as bs

/-- The ordering localeCompare induces on the formatted time strings,
modelled as lexicographic code-point order. -/
def strLe (a b : String) : Bool := !(strLtAux b.data a.data)

/-- Ephemeral dashboard schedule record; id is the raw row id. -/
structure ScheduleItem where
  id : String
  title : String
  type : String
  time : String
  course : Option String
  priority : Option String
  completed : Option Bool
deriving DecidableEq

/-- loadDashboardData's schedule tail: from the uncompleted-tasks query
and the next-exam query, keep tasks due today or overdue and exams today
or tomorrow, build items carrying the raw row ids, and sort by the
formatted time string (localeCompare). -/
def loadDashboardSchedule (tasks : List TaskRow) (exams : List ExamRow)
    (now : Int) : List ScheduleItem :=
  let todayTasks := tasks.filter (fun t =>
    match t.due_date with
    | none => false
    | some d => isToday d now || (decide (d < now) && !t.completed))
  let taskItems := todayTasks.map (fun t =>
    { id := t.id, title := t.title, type := "task",
      time := match t.due_date with
              | some d => formatHM d
              | none => "No time",
      course := t.course, priority := some t.priority,
      completed := some t.completed })
  let todayExams := exams.filter (fun e =>
    isToday e.exam_date now || isTomorrow e.exam_date now)
  let examItems := todayExams.map (fun e =>
    { id := e.id, title := e.title, type := "exam",
      time := formatHM e.exam_date,
      course := some e.course, priority := none, completed := none })
  (taskItems ++ examItems).insertionSort (fun a b => strLe a.time b.time = true)

/-! ## Concrete instances used by witnesses and counterexamples -/

/-- Six exams all in the future of now = 0, with distinct ids. -/
def examRowsSix : List ExamRow :=
  [{ id := "1", course := "c", title := "t", exam_date := 1 },
   { id := "2", course := "c", title := "t", exam_date := 2 },
   { id := "3", course := "c", title := "t", exam_date := 3 },
   { id := "4", course := "c", title := "t", exam_date := 4 },
   { id := "5", course := "c", title := "t", exam_date := 5 },
   { id := "6", course := "c", title := "t", exam_date := 6 }]

/-- One future exam (id 1) and one past exam (id 2) relative to now = 0. -/
def examRowsTwo : List ExamRow :=
  [{ id := "1", course := "c", title := "t", exam_date := 5 },
   { id := "2", course := "c", title := "t", exam_date := -3 }]

/-- A task due today at 09:00 UTC of day 0, sharing its id with dashExam. -/
def dashTask : TaskRow :=
  { id := "a", title := "T", course := none, due_date := some 32400000,
    completed := false, priority := "high" }

/-- An exam today at 10:00 UTC of day 0, sharing its id with dashTask. -/
def dashExam : ExamRow :=
  { id := "a", course := "Math", title := "E", exam_date := 36000000 }

/-- The exam of the spec's concrete example: 2024-01-04T00:00:00Z. -/
def examJan4 : ExamRow :=
  { id := "e1", course := "Math", title := "Final", exam_date := 1704326400000 }

/-- 2024-01-01T00:00:00Z in epoch milliseconds. -/
def jan1of2024 : Int := 1704067200000

/-- One exam row, with a raw id shared with the task rows below. -/
def notifExamRows : List ExamRow :=
  [{ id := "x", course := "c", title := "t", exam_date := 1 }]

/-- One overdue task row with raw id x. -/
def notifTaskRowsA : List TaskRow :=
  [{ id := "x", title := "t", course := none, due_date := some (-1),
     completed := false, priority := "low" }]

/-- One upcoming task row with raw id x. -/
def notifTaskRowsB : List TaskRow :=
  [{ id := "x", title := "u", course := none, due_date := some 1,
     completed := false, priority := "low" }]

/-- A two-notification header state for the unread-count witness. -/
def headerTwo : HeaderState :=
  { notifications :=
      [{ id := "exam-1", title := "a", message := "m", time := "d", read := false },
       { id := "overdue-2", title := "b", message := "n", time := "d", read := false }],
    unreadCount := 2 }

/-! ## Helper lemmas -/

lemma string_append_left_cancel (p a b : String) (h : p ++ a = p ++ b) : a = b := by
  have hd := congrArg String.data h
  simp only [String.data_append] at hd
  exact String.ext (List.append_cancel_left hd)

lemma string_prefix_injective (p : String) :
    Function.Injective (fun a : String => p ++ a) :=
  fun a b h => string_append_left_cancel p a b h

lemma exam_id_ne_overdue_id (a b : String) :
    ("exam-" ++ a : String) ≠ "overdue-" ++ b := by
  intro h
  have hd := congrArg String.data h
  simp [String.data_append, String.data] at hd

lemma exam_id_ne_upcoming_id (a b : String) :
    ("exam-" ++ a : String) ≠ "upcoming-" ++ b := by
  intro h
  have hd := congrArg String.data h
  simp [String.data_append, String.data] at hd

lemma overdue_id_ne_upcoming_id (a b : String) :
    ("overdue-" ++ a : String) ≠ "upcoming-" ++ b := by
  intro h
  have hd := congrArg String.data h
  simp [String.data_append, String.data] at hd

/-- Counting rows that match a key known unique plus a side condition. -/
lemma countP_key_and {α β : Type} [DecidableEq β] (f : α → β) (q : α → Bool) :
    ∀ (l : List α) (e : α), (l.map f).Nodup → e ∈ l →
      l.countP (fun r => decide (f r = f e) && q r) = if q e then 1 else 0 := by
  intro l
  induction l with
  | nil => intro e _ he; exact absurd he (List.not_mem_nil e)
  | cons a t ih =>
      intro e hnd he
      rw [List.map_cons, List.nodup_cons] at hnd
      rw [List.countP_cons]
      rcases List.mem_cons.mp he with h | het
      · subst h
        have ht : t.countP (fun r => decide (f r = f e) && q r) = 0 := by
          apply List.countP_eq_zero.mpr
          intro r hr hpr
          rw [Bool.and_eq_true, decide_eq_true_eq] at hpr
          exact hnd.1 (hpr.1 ▸ List.mem_map_of_mem f hr)
        rw [ht]
        simp
      · have hne : f a ≠ f e := by
          intro hfe
          exact hnd.1 (by rw [hfe]; exact List.mem_map_of_mem f het)
        have ha : (decide (f a = f e) && q a) = false := by
          simp [hne]
        rw [ha, ih e hnd.2 het]
        simp

/-- Complement counting: the matches and the non-matches partition. -/
lemma countP_not_add_countP (l : List Notification) (p : Notification → Bool) :
    l.countP (fun a => !p a) + l.countP p = l.length := by
  induction l with
  | nil => rfl
  | cons a t ih =>
      rw [List.countP_cons, List.countP_cons, List.length_cons]
      cases h : p a <;> simp [h] <;> omega

/-- loadNotifications never aborts: each failed (none) source contributes
the empty list and the others contribute their builder images. -/
lemma loadNotifications_eq (examsRes : Option (List ExamRow))
    (overdueRes upcomingRes : Option (List TaskRow)) (now : Int) :
    loadNotifications examsRes overdueRes upcomingRes now
      = (examsRes.getD []).map (mkExamNotif now)
        ++ (overdueRes.getD []).map mkOverdueNotif
        ++ (upcomingRes.getD []).map (mkUpcomingNotif now) := by
  cases examsRes <;> cases overdueRes <;> cases upcomingRes <;> rfl

/-- Mapping ids over a list prefixed with one tag stays duplicate-free. -/
lemma nodup_prefixed_ids {α : Type} (p : String) (f : α → String) (l : List α)
    (h : (l.map f).Nodup) : (l.map (fun a => p ++ f a)).Nodup := by
  have hm : l.map (fun a => p ++ f a) = (l.map f).map (fun s => p ++ s) :=
    (List.map_map _ _ _).symm
  rw [hm]
  exact h.map (string_prefix_injective p)

/-! ## Claim C1 -/

/-- Claim C1: start() from Idle (not running, no open session id) appends
exactly one row (completed = false, duration = the configured whole
minutes) and transitions to Running; and any toggle() while an open
session id exists leaves the table and the session id untouched, so
pause/resume reuses the same row. -/
theorem claim_C1_start_creates_one_row (s : PomodoroState) (newId : String)
    (hrun : s.isRunning = false) (hsid : s.sessionId = none) :
    (toggleTimer s true (some newId)).db
        = s.db ++ [{ id := newId, duration := s.duration / 60,
                     completed := false, completed_at := none }]
      ∧ (toggleTimer s true (some newId)).isRunning = true
      ∧ (toggleTimer s true (some newId)).sessionId = some newId
      ∧ ∀ (s₂ : PomodoroState) (sid : String) (user : Bool) (ins : Option String),
          s₂.sessionId = some sid →
          (toggleTimer s₂ user ins).db = s₂.db
            ∧ (toggleTimer s₂ user ins).sessionId = some sid := by
  refine ⟨?_, ?_, ?_, ?_⟩
  · simp [toggleTimer, hrun, hsid]
  · simp [toggleTimer, hrun, hsid]
  · simp [toggleTimer, hrun, hsid]
  · intro s₂ sid user ins hs
    have hnone : s₂.sessionId.isNone = false := by simp [hs]
    cases hr : s₂.isRunning <;>
      simp [toggleTimer, hr, hnone, hs]

theorem claim_C1_witness :
    (toggleTimer pomodoroInit true (some "s1")).db
        = pomodoroInit.db ++ [{ id := "s1", duration := pomodoroInit.duration / 60,
                                completed := false, completed_at := none }]
      ∧ (toggleTimer pomodoroInit true (some "s1")).isRunning = true
      ∧ (toggleTimer pomodoroInit true (some "s1")).sessionId = some "s1"
      ∧ ∀ (s₂ : PomodoroState) (sid : String) (user : Bool) (ins : Option String),
          s₂.sessionId = some sid →
          (toggleTimer s₂ user ins).db = s₂.db
            ∧ (toggleTimer s₂ user ins).sessionId = some sid :=
  claim_C1_start_creates_one_row pomodoroInit "s1" rfl rfl

/-! ## Claim C2 -/

/-- Claim C2: a tick while ticking is active with one second left brings
timeLeft to 0, the effect then triggers exactly one completeSession call,
and after that call succeeds the next effect evaluation triggers none. -/
theorem claim_C2_tick_at_one_second (s : PomodoroState) (now : Int) (sid : String)
    (h1 : s.timeLeft = 1) (hr : s.isRunning = true) (hs : s.sessionId = some sid) :
    (intervalTick s).timeLeft = 0
      ∧ effectCompletionCalls (intervalTick s) = 1
      ∧ effectCompletionCalls (runEffect (intervalTick s) now true) = 0 := by
  have ht : intervalTick s = { s with timeLeft := 0 } := by
    simp [intervalTick, hr, h1]
  refine ⟨?_, ?_, ?_⟩
  · rw [ht]
  · rw [ht]; simp [effectCompletionCalls, hr]
  · rw [ht]
    simp [runEffect, effectCompletionCalls, completeSession, resetTimer, hr, hs]

theorem claim_C2_witness :
    (intervalTick pomodoroNearDone).timeLeft = 0
      ∧ effectCompletionCalls (intervalTick pomodoroNearDone) = 1
      ∧ effectCompletionCalls (runEffect (intervalTick pomodoroNearDone) 0 true) = 0 :=
  claim_C2_tick_at_one_second pomodoroNearDone 0 "s1" rfl rfl rfl

/-! ## Claim C3 -/

/-- Claim C3 counterexample: with six future exams the limit-5 exams query
drops the sixth, so no exam-6 item is produced even though that row's
exam_date is at or after now; the claim's universal form fails. -/
theorem claim_C3_counterexample :
    ({ id := "6", course := "c", title := "t", exam_date := 6 } : ExamRow) ∈ examRowsSix
      ∧ (0 : Int) ≤ (6 : Int)
      ∧ (loadNotifications (some (examsQuery examRowsSix 0)) (some []) (some []) 0).countP
          (fun n => n.id = "exam-" ++ "6") = 0 := by
  decide

/-- Claim C3 as amended: provided at most five exam rows lie at or after
now (the query's limit), every such row yields exactly one exam-tagged
item and every earlier row yields none, whatever the task sources hold. -/
theorem claim_C3_exam_items_with_cap (rows : List ExamRow) (now : Int)
    (overdueRes upcomingRes : Option (List TaskRow)) (e : ExamRow)
    (hnd : (rows.map ExamRow.id).Nodup)
    (hlen : (rows.filter (fun r => now ≤ r.exam_date)).length ≤ 5)
    (he : e ∈ rows) :
    (loadNotifications (some (examsQuery rows now)) overdueRes upcomingRes now).countP
        (fun n => n.id = "exam-" ++ e.id)
      = if now ≤ e.exam_date then 1 else 0 := by
  rw [loadNotifications_eq]
  simp only [Option.getD_some]
  rw [List.countP_append, List.countP_append]
  have hover : ((overdueRes.getD []).map mkOverdueNotif).countP
      (fun n => decide (n.id = "exam-" ++ e.id)) = 0 := by
    rw [List.countP_map]
    apply List.countP_eq_zero.mpr
    intro t _ hpr
    simp only [Function.comp_apply, mkOverdueNotif, decide_eq_true_eq] at hpr
    exact exam_id_ne_overdue_id e.id t.id hpr.symm
  have hupc : ((upcomingRes.getD []).map (mkUpcomingNotif now)).countP
      (fun n => decide (n.id = "exam-" ++ e.id)) = 0 := by
    rw [List.countP_map]
    apply List.countP_eq_zero.mpr
    intro t _ hpr
    simp only [Function.comp_apply, mkUpcomingNotif, decide_eq_true_eq] at hpr
    exact exam_id_ne_upcoming_id e.id t.id hpr.symm
  rw [hover, hupc]
  simp only [Nat.add_zero]
  have hperm : List.Perm
      ((rows.filter (fun r => now ≤ r.exam_date)).insertionSort
        (fun a b => a.exam_date ≤ b.exam_date))
      (rows.filter (fun r => now ≤ r.exam_date)) :=
    List.perm_insertionSort _ _
  have hq : examsQuery rows now
      = (rows.filter (fun r => now ≤ r.exam_date)).insertionSort
          (fun a b => a.exam_date ≤ b.exam_date) := by
    unfold examsQuery
    exact List.take_of_length_le (by rw [hperm.length_eq]; exact hlen)
  have hpred : ((fun n : Notification => decide (n.id = "exam-" ++ e.id))
        ∘ mkExamNotif now)
      = fun r : ExamRow => decide (r.id = e.id) := by
    funext r
    simp only [Function.comp_apply, mkExamNotif, decide_eq_decide]
    exact ⟨fun h => string_append_left_cancel _ _ _ h, fun h => by rw [h]⟩
  rw [List.countP_map, hpred, hq, hperm.countP_eq, List.countP_filter]
  rw [countP_key_and ExamRow.id (fun r => decide (now ≤ r.exam_date)) rows e hnd he]
  simp

theorem claim_C3_witness :
    (loadNotifications (some (examsQuery examRowsTwo 0)) (some []) (some []) 0).countP
        (fun n => n.id = "exam-" ++ "1")
      = if (0 : Int) ≤ (5 : Int) then 1 else 0 :=
  claim_C3_exam_items_with_cap examRowsTwo 0 (some []) (some [])
    { id := "1", course := "c", title := "t", exam_date := 5 }
    (by decide) (by decide) (by decide)

/-! ## Claim C4 -/

/-- Claim C4: reset() from any state stops ticking, restores the full
configured duration, clears the session id, and leaves the sessions table
(in particular the completed flag of every row) untouched. -/
theorem claim_C4_reset_frame (s : PomodoroState) :
    (resetTimer s).isRunning = false
      ∧ (resetTimer s).timeLeft = s.duration
      ∧ (resetTimer s).sessionId = none
      ∧ (resetTimer s).db = s.db :=
  ⟨rfl, rfl, rfl, rfl⟩

/-! ## Claim C5 -/

/-- Claim C5: when the creating insert fails, toggleTimer from Idle returns
with the whole state (ticking flag, session id, table) unchanged. -/
theorem claim_C5_start_failure_no_mutation (s : PomodoroState)
    (hrun : s.isRunning = false) (hsid : s.sessionId = none) :
    toggleTimer s true none = s := by
  simp [toggleTimer, hrun, hsid]

theorem claim_C5_witness : toggleTimer pomodoroInit true none = pomodoroInit :=
  claim_C5_start_failure_no_mutation pomodoroInit rfl rfl

/-! ## Claim C6 -/

/-- Claim C6 counterexample: the dashboard schedule aggregation keeps the
raw row ids, so a task and an exam sharing an id yield two items with the
same id; the claimed namespacing fails for this aggregation. -/
theorem claim_C6_counterexample :
    (loadDashboardSchedule [dashTask] [dashExam] 0).map ScheduleItem.id = ["a", "a"] := by
  decide

/-- Claim C6 as amended: the notification aggregator namespaces every item
id by its source (exam- / overdue- / upcoming-), so its merged output has
pairwise distinct ids whenever each source table's ids are distinct, even
across tables with coinciding raw ids; the dashboard schedule items
instead carry the raw row ids (see the counterexample). -/
theorem claim_C6_namespaced_ids (es : List ExamRow) (os us : List TaskRow)
    (now : Int)
    (h1 : (es.map ExamRow.id).Nodup) (h2 : (os.map TaskRow.id).Nodup)
    (h3 : (us.map TaskRow.id).Nodup) :
    ((loadNotifications (some es) (some os) (some us) now).map Notification.id).Nodup := by
  rw [loadNotifications_eq]
  simp only [Option.getD_some]
  rw [List.map_append, List.map_append, List.map_map, List.map_map, List.map_map]
  have hef : (Notification.id ∘ mkExamNotif now)
      = fun r : ExamRow => "exam-" ++ r.id := by
    funext r; simp [mkExamNotif]
  have hof : (Notification.id ∘ mkOverdueNotif)
      = fun r : TaskRow => "overdue-" ++ r.id := by
    funext r; simp [mkOverdueNotif]
  have huf : (Notification.id ∘ mkUpcomingNotif now)
      = fun r : TaskRow => "upcoming-" ++ r.id := by
    funext r; simp [mkUpcomingNotif]
  rw [hef, hof, huf]
  rw [List.append_assoc, List.nodup_append]
  refine ⟨nodup_prefixed_ids _ _ _ h1, ?_, ?_⟩
  · rw [List.nodup_append]
    refine ⟨nodup_prefixed_ids _ _ _ h2, nodup_prefixed_ids _ _ _ h3, ?_⟩
    intro x hxo hxu
    obtain ⟨r, _, rfl⟩ := List.mem_map.mp hxo
    obtain ⟨r2, _, he⟩ := List.mem_map.mp hxu
    exact overdue_id_ne_upcoming_id r.id r2.id he.symm
  · intro x hxe hx
    obtain ⟨r, _, rfl⟩ := List.mem_map.mp hxe
    rcases List.mem_append.mp hx with hxo | hxu
    · obtain ⟨r2, _, he⟩ := List.mem_map.mp hxo
      exact exam_id_ne_overdue_id r.id r2.id he.symm
    · obtain ⟨r2, _, he⟩ := List.mem_map.mp hxu
      exact exam_id_ne_upcoming_id r.id r2.id he.symm

theorem claim_C6_witness :
    ((loadNotifications (some notifExamRows) (some notifTaskRowsA)
        (some notifTaskRowsB) 0).map Notification.id).Nodup :=
  claim_C6_namespaced_ids notifExamRows notifTaskRowsA notifTaskRowsB 0
    (by decide) (by decide) (by decide)

/-! ## Claim C7 -/

/-- Claim C7: the whole-day count a builder embeds is the ceiling of
(date - now) in days — it is the unique integer k with
msPerDay * (k - 1) < date - now <= msPerDay * k — and on the spec's
concrete instance (now = 2024-01-01T00:00:00Z, exam at
2024-01-04T00:00:00Z) the message embeds "3 days". -/
theorem claim_C7_message_embeds_ceiling_days (now : Int) (e : ExamRow)
    (t : TaskRow) (hfut : now ≤ e.exam_date) :
    (mkExamNotif now e).message
        = e.title ++ " in " ++ toString (daysUntil now e.exam_date) ++ " days"
      ∧ msPerDay * (daysUntil now e.exam_date - 1) < e.exam_date - now
      ∧ e.exam_date - now ≤ msPerDay * daysUntil now e.exam_date
      ∧ (mkUpcomingNotif now t).message
          = t.title ++ " due in "
            ++ toString (daysUntil now (t.due_date.getD 0)) ++ " days"
      ∧ (mkExamNotif jan1of2024 examJan4).message = "Final in 3 days" := by
  have hms : msPerDay = 86400000 := by decide
  have hd : 0 ≤ e.exam_date - now := by omega
  have hk : daysUntil now e.exam_date
      = (e.exam_date - now + 86399999) / 86400000 := by
    unfold daysUntil
    rw [hms]
    rw [Int.fdiv_eq_ediv] <;> omega
  refine ⟨rfl, ?_, ?_, rfl, by decide⟩
  · rw [hk, hms]; omega
  · rw [hk, hms]; omega

theorem claim_C7_witness :
    (mkExamNotif jan1of2024 examJan4).message
        = examJan4.title ++ " in "
          ++ toString (daysUntil jan1of2024 examJan4.exam_date) ++ " days"
      ∧ msPerDay * (daysUntil jan1of2024 examJan4.exam_date - 1)
          < examJan4.exam_date - jan1of2024
      ∧ examJan4.exam_date - jan1of2024
          ≤ msPerDay * daysUntil jan1of2024 examJan4.exam_date
      ∧ (mkUpcomingNotif jan1of2024 dashTask).message
          = dashTask.title ++ " due in "
            ++ toString (daysUntil jan1of2024 (dashTask.due_date.getD 0)) ++ " days"
      ∧ (mkExamNotif jan1of2024 examJan4).message = "Final in 3 days" :=
  claim_C7_message_embeds_ceiling_days jan1of2024 examJan4 dashTask (by decide)

/-! ## Claim C8 -/

/-- Claim C8: for every subset of failed sources the aggregation still
succeeds, equalling the aggregation in which each failed source is the
empty collection and the successful ones are untouched. -/
theorem claim_C8_fail_soft (examsRes : Option (List ExamRow))
    (overdueRes upcomingRes : Option (List TaskRow)) (now : Int) :
    loadNotifications examsRes overdueRes upcomingRes now
        = loadNotifications (some (examsRes.getD [])) (some (overdueRes.getD []))
            (some (upcomingRes.getD [])) now
      ∧ loadNotifications examsRes overdueRes upcomingRes now
          = (examsRes.getD []).map (mkExamNotif now)
            ++ (overdueRes.getD []).map mkOverdueNotif
            ++ (upcomingRes.getD []).map (mkUpcomingNotif now) := by
  constructor
  · rw [loadNotifications_eq, loadNotifications_eq]
    simp
  · exact loadNotifications_eq examsRes overdueRes upcomingRes now

/-! ## Claim C9 -/

/-- Claim C9: completeSession with no open session id is a no-op: no write
reaches the table and the state is returned unchanged. -/
theorem claim_C9_complete_without_session_noop (s : PomodoroState) (now : Int)
    (updateOk : Bool) (h : s.sessionId = none) :
    completeSession s now updateOk = s := by
  simp [completeSession, h]

theorem claim_C9_witness : completeSession pomodoroInit 0 true = pomodoroInit :=
  claim_C9_complete_without_session_noop pomodoroInit 0 true rfl

/-! ## Claim C10 -/

/-- Claim C10: loading sets the unread count to the produced list's length
(hence non-negative); dismissing an existing id keeps the count
non-negative, decrements it by one clamped at zero, and removes from the
list exactly the notification carrying that id. -/
theorem claim_C10_unread_count (h : HeaderState) (notifs : List Notification)
    (nid : String) (n : Notification)
    (hcnt : 0 ≤ h.unreadCount)
    (hnd : (h.notifications.map Notification.id).Nodup)
    (hmem : n ∈ h.notifications) (hid : n.id = nid) :
    (setLoadedNotifications h notifs).unreadCount = (notifs.length : Int)
      ∧ 0 ≤ (setLoadedNotifications h notifs).unreadCount
      ∧ 0 ≤ (removeNotification h nid).unreadCount
      ∧ (removeNotification h nid).unreadCount
          = (if h.unreadCount = 0 then 0 else h.unreadCount - 1)
      ∧ (removeNotification h nid).notifications.length + 1
          = h.notifications.length
      ∧ n ∉ (removeNotification h nid).notifications
      ∧ ∀ m ∈ h.notifications, m.id ≠ nid →
          m ∈ (removeNotification h nid).notifications := by
  subst hid
  have hcount : h.notifications.countP (fun m => decide (m.id = n.id)) = 1 := by
    have hone := countP_key_and Notification.id (fun _ => true)
      h.notifications n hnd hmem
    simpa using hone
  refine ⟨rfl, ?_, ?_, ?_, ?_, ?_, ?_⟩
  · simp [setLoadedNotifications]
  · simp [removeNotification]
  · simp only [removeNotification]
    omega
  · simp only [removeNotification]
    have hfl : (h.notifications.filter (fun m => m.id ≠ n.id)).length
        = h.notifications.countP (fun m => !decide (m.id = n.id)) := by
      rw [← List.countP_eq_length_filter]
      congr 1
      funext m
      simp
    have hsum := countP_not_add_countP h.notifications (fun m => decide (m.id = n.id))
    rw [hfl]
    omega
  · simp [removeNotification, List.mem_filter]
  · intro m hm hne
    simp [removeNotification, List.mem_filter, hm, hne]

theorem claim_C10_witness :
    (setLoadedNotifications headerTwo (headerTwo.notifications)).unreadCount
        = ((headerTwo.notifications).length : Int)
      ∧ 0 ≤ (setLoadedNotifications headerTwo (headerTwo.notifications)).unreadCount
      ∧ 0 ≤ (removeNotification headerTwo "exam-1").unreadCount
      ∧ (removeNotification headerTwo "exam-1").unreadCount
          = (if headerTwo.unreadCount = 0 then 0 else headerTwo.unreadCount - 1)
      ∧ (removeNotification headerTwo "exam-1").notifications.length + 1
          = headerTwo.notifications.length
      ∧ ({ id := "exam-1", title := "a", message := "m", time := "d",
           read := false } : Notification)
          ∉ (removeNotification headerTwo "exam-1").notifications
      ∧ ∀ m ∈ headerTwo.notifications, m.id ≠ "exam-1" →
          m ∈ (removeNotification headerTwo "exam-1").notifications :=
  claim_C10_unread_count headerTwo headerTwo.notifications "exam-1"
    { id := "exam-1", title := "a", message := "m", time := "d", read := false }
    (by decide) (by decide) (by decide) (by decide)

end Planora
